import Mathlib

/-!
# Verification of the APCR-Control motion core

Shallow embedding of the wall-avoiding preset planner (`presets.py`), the
virtual-wall guard, the adaptive-speed interpolator and the per-axis motion
state machine (`controls.py`) of the APCR-Control repository, together with
theorems settling the specification claims about them.

Angles are modelled as exact rationals (`ℚ`).  Python's float `%` with a
positive divisor is modelled by `pmod` (remainder with the sign of the
divisor), and Python's `int(...)` truncation toward zero by `qtrunc`.
-/

namespace APCRControl

/-- Python `x % y` for a positive divisor `y`: the representative of `x`
modulo `y` lying in `[0, y)`. -/
def pmod (x y : ℚ) : ℚ := x - y * (⌊x / y⌋ : ℤ)

/-- Python `int(...)`: truncation toward zero. -/
def qtrunc (q : ℚ) : ℤ := if q < 0 then ⌈q⌉ else ⌊q⌋

theorem pmod_eq_fract (x y : ℚ) (hy : y ≠ 0) : pmod x y = y * Int.fract (x / y) := by
  unfold pmod Int.fract
  field_simp

theorem pmod_nonneg (x y : ℚ) (hy : 0 < y) : 0 ≤ pmod x y := by
  rw [pmod_eq_fract x y (ne_of_gt hy)]
  exact mul_nonneg (le_of_lt hy) (Int.fract_nonneg _)

theorem pmod_lt (x y : ℚ) (hy : 0 < y) : pmod x y < y := by
  rw [pmod_eq_fract x y (ne_of_gt hy)]
  calc y * Int.fract (x / y) < y * 1 := by
        exact mul_lt_mul_of_pos_left (Int.fract_lt_one _) hy
    _ = y := mul_one y

theorem pmod_eq_self (x y : ℚ) (hy : 0 < y) (h0 : 0 ≤ x) (h1 : x < y) :
    pmod x y = x := by
  unfold pmod
  have : ⌊x / y⌋ = 0 := by
    rw [Int.floor_eq_zero_iff]
    constructor
    · exact div_nonneg h0 (le_of_lt hy)
    · rw [div_lt_one hy]; exact h1
  rw [this]
  push_cast
  ring

/-- `pmod x y` differs from `x` by an integer multiple of `y`. -/
theorem pmod_sub_int_mul (x y : ℚ) : ∃ k : ℤ, pmod x y = x + y * k :=
  ⟨-⌊x / y⌋, by unfold pmod; push_cast; ring⟩

/-- Generic normalisation of an angle into `[0, 360)` (`norm360` in the
source, defined identically in `presets.py` and `controls.py`). -/
def norm360 (x : ℚ) : ℚ := pmod x 360

theorem norm360_nonneg (x : ℚ) : 0 ≤ norm360 x := pmod_nonneg x 360 (by norm_num)

theorem norm360_lt (x : ℚ) : norm360 x < 360 := pmod_lt x 360 (by norm_num)

theorem norm360_eq_self (x : ℚ) (h0 : 0 ≤ x) (h1 : x < 360) : norm360 x = x :=
  pmod_eq_self x 360 (by norm_num) h0 h1

namespace Presets

/-- `native_to_normalized` (live definition, `presets.py:834`): divide by 10
when the magnitude exceeds 359 (value assumed to be in tenths of a degree),
then reduce modulo 360. -/
def native_to_normalized (angle : ℚ) : ℚ :=
  let angle_deg := if |angle| > 359 then angle / 10 else angle
  norm360 angle_deg

/-- The tenths-to-degrees conversion used repeatedly in `shortest_rotation`
(`presets.py:387-390`): divide by 10 when the magnitude exceeds 359. -/
def toDeg (x : ℚ) : ℚ := if |x| > 359 then x / 10 else x

/-- The smaller of the two normalised wall bounds (`wall_start` after the
sorting step shared by `inWall` and `rotation_crosses_wall`). -/
def wallLo (w1 w2 : ℚ) : ℚ :=
  if native_to_normalized w1 ≤ native_to_normalized w2 then native_to_normalized w1
  else native_to_normalized w2

/-- The larger of the two normalised wall bounds (`wall_end` after sorting). -/
def wallHi (w1 w2 : ℚ) : ℚ :=
  if native_to_normalized w1 ≤ native_to_normalized w2 then native_to_normalized w2
  else native_to_normalized w1

/-- Membership of a (normalised-space) point between sorted wall bounds, with
the wrap-around branch for `wall_start > wall_end` (`presets.py:168-173` and
`presets.py:290-295`). -/
def wallMem (wall_start wall_end pt : ℚ) : Bool :=
  if wall_start ≤ wall_end then
    decide (wall_start ≤ pt ∧ pt ≤ wall_end)
  else
    decide (pt ≥ wall_start ∨ pt ≤ wall_end)

/-- `inWall` (live definition, `presets.py:794`): normalise the angle and both
bounds, sort the bounds, and test membership; the sorted bounds make the
wrap-around branch of `wallMem` unreachable. -/
def inWall (angle w1 w2 : ℚ) : Bool :=
  wallMem (wallLo w1 w2) (wallHi w1 w2) (native_to_normalized angle)

/-- `inWall` including the `None`-bounds guard of the source (`w1 is None or
w2 is None` returns `False`). -/
def inWallOpt (angle : ℚ) (w1 w2 : Option ℚ) : Bool :=
  match w1, w2 with
  | some a, some b => inWall angle a b
  | _, _ => false

/-- One ascending sampling loop of `sample_arc_normalized`
(`while current < tgt: current = min(current + step, tgt); points.append(current)`),
unrolled on an iteration budget that is sufficient whenever `step > 0`. -/
def sampleUpAux : ℕ → ℚ → ℚ → ℚ → List ℚ
  | 0, _, _, _ => []
  | n + 1, current, tgt, step =>
    if current < tgt then
      let nxt := min (current + step) tgt
      nxt :: sampleUpAux n nxt tgt step
    else []

/-- Iteration budget for `sampleUpAux`: at most `⌈(tgt - current)/step⌉`
iterations are performed for a positive step. -/
def sampleUp (current tgt step : ℚ) : List ℚ :=
  sampleUpAux ((⌈(tgt - current) / step⌉).toNat + 1) current tgt step

/-- One descending sampling loop of `sample_arc_normalized`
(`while current > tgt: current = max(current - step, tgt); points.append(current)`). -/
def sampleDownAux : ℕ → ℚ → ℚ → ℚ → List ℚ
  | 0, _, _, _ => []
  | n + 1, current, tgt, step =>
    if current > tgt then
      let nxt := max (current - step) tgt
      nxt :: sampleDownAux n nxt tgt step
    else []

def sampleDown (current tgt step : ℚ) : List ℚ :=
  sampleDownAux ((⌈(current - tgt) / step⌉).toNat + 1) current tgt step

/-- `sample_arc_normalized` (`presets.py:178-236`): the sampled points of the
arc from `start_norm` to `end_norm` in the given direction (`1` = CCW,
anything else = CW), with the two-phase variants crossing 0°/360° appending
the loop value reduced modulo 360, and the end point appended when the last
sample differs from it. -/
def sample_arc_normalized (start_norm end_norm : ℚ) (direction : ℤ) (step : ℚ) :
    List ℚ :=
  let points :=
    if direction = 1 then
      if end_norm > start_norm then
        start_norm :: sampleUp start_norm end_norm step
      else
        start_norm ::
          ((sampleUp start_norm 360 step).map (fun c => pmod c 360) ++
            sampleUp 0 end_norm step)
    else
      if end_norm < start_norm then
        start_norm :: sampleDown start_norm end_norm step
      else
        start_norm ::
          (sampleDown start_norm 0 step ++
            (sampleDown 360 end_norm step).map (fun c => pmod c 360))
  if points.getLast? = some end_norm then points else points ++ [end_norm]

/-- The scanning loop of `rotation_crosses_wall` (`presets.py:282-302`): walk
consecutive sample pairs and report a crossing as soon as either point of a
pair is inside the wall. -/
def pairCross (inw : ℚ → Bool) : List ℚ → Bool
  | p :: q :: rest => (inw p || inw q) || pairCross inw (q :: rest)
  | _ => false

/-- `rotation_crosses_wall` (`presets.py:238-309`): normalise endpoints and
bounds, sort the bounds, sample the arc at a step of 2° and scan the samples
for wall membership.  Returns `false` when a bound is missing. -/
def rotation_crosses_wall (start end_ : ℚ) (direction : ℤ) (w1 w2 : Option ℚ) :
    Bool :=
  match w1, w2 with
  | some w1, some w2 =>
    pairCross (wallMem (wallLo w1 w2) (wallHi w1 w2))
      (sample_arc_normalized (native_to_normalized start) (native_to_normalized end_)
        direction 2)
  | _, _ => false

/-- The sampled-crossing test as the specification words it: some sample of
the arc from `start` to `end_`, taken at a step of 2°, lies inside the wall. -/
def crossesSampled (start end_ : ℚ) (direction : ℤ) (w1 w2 : ℚ) : Prop :=
  ∃ p ∈ sample_arc_normalized (native_to_normalized start) (native_to_normalized end_)
      direction 2,
    wallMem (wallLo w1 w2) (wallHi w1 w2) p = true

instance (start end_ : ℚ) (direction : ℤ) (w1 w2 : ℚ) :
    Decidable (crossesSampled start end_ direction w1 w2) :=
  List.decidableBEx _ _

/-- `calculate_shortest_rotation` (`presets.py:311-336`): the signed shortest
rotation from `a` to `b` (magnitude ≤ 180°) and its direction
(`1` = CCW/right for nonnegative rotations, `-1` = CW/left). -/
def calculate_shortest_rotation (a b : ℚ) : ℚ × ℤ :=
  let a_deg := toDeg a
  let b_deg := toDeg b
  let rotation := b_deg - a_deg
  let rotation :=
    if rotation > 180 then rotation - 360
    else if rotation < -180 then rotation + 360
    else rotation
  (rotation, if rotation ≥ 0 then 1 else -1)

/-- The clockwise rotation candidate of `shortest_rotation`
(`presets.py:397-400`): `cw_rot = (a_norm - b_norm) % 360`, folded into
`(-180, 180]` and negated. -/
def cwRot (a b : ℚ) : ℚ :=
  let r := pmod (norm360 (toDeg a) - norm360 (toDeg b)) 360;
  -(if r > 180 then r - 360 else r)

/-- The counter-clockwise rotation candidate of `shortest_rotation`
(`presets.py:403-405`). -/
def ccwRot (a b : ℚ) : ℚ :=
  let r := pmod (norm360 (toDeg b) - norm360 (toDeg a)) 360
  if r > 180 then r - 360 else r

/-- `shortest_option` (`presets.py:408`): the candidate of smaller magnitude
(ties go to the clockwise candidate). -/
def shortestOpt (a b : ℚ) : ℚ :=
  if |cwRot a b| ≤ |ccwRot a b| then cwRot a b else ccwRot a b

/-- `shortest_dir` (`presets.py:409`). -/
def shortestDir (a b : ℚ) : ℤ :=
  if shortestOpt a b = cwRot a b then -1 else 1

/-- `is_at_lower_half` (`presets.py:424-433`): which half of the wall the
(in-wall) start angle occupies, deciding the nearer boundary. -/
def is_at_lower_half (a_norm ws_deg we_deg : ℚ) : Bool :=
  let w1 := norm360 ws_deg
  let w2 := norm360 we_deg
  let lower := min w1 w2
  let upper := max w1 w2
  if w1 ≤ w2 then decide (a_norm - lower < upper - a_norm)
  else if a_norm ≥ lower then decide (a_norm - lower < 360 - a_norm + upper)
  else decide (360 - lower + a_norm < upper - a_norm)

/-- Exit point of the in-wall branch of `shortest_rotation`
(`presets.py:436-447`): 1° beyond the chosen boundary. -/
def exit_pt (a_norm ws_deg we_deg : ℚ) : ℚ :=
  let lower := min (norm360 ws_deg) (norm360 we_deg)
  let upper := max (norm360 ws_deg) (norm360 we_deg)
  if is_at_lower_half a_norm ws_deg we_deg then norm360 (lower - 1)
  else norm360 (upper + 1)

/-- Exit direction of the in-wall branch (`-1` via the lower boundary,
`1` via the upper boundary). -/
def exit_dir (a_norm ws_deg we_deg : ℚ) : ℤ :=
  if is_at_lower_half a_norm ws_deg we_deg then -1 else 1

/-- Exit rotation of the in-wall branch (`presets.py:440-452`). -/
def exit_dist (a_norm ws_deg we_deg : ℚ) : ℚ :=
  if is_at_lower_half a_norm ws_deg we_deg then
    let d := pmod (a_norm - exit_pt a_norm ws_deg we_deg) 360;
    -(if d > 180 then d - 360 else d)
  else
    let d := pmod (exit_pt a_norm ws_deg we_deg - a_norm) 360
    if d > 180 then d - 360 else d

/-- Remaining rotation from the exit point to the target, continuing in the
exit direction (`presets.py:456-470`). -/
def remaining_dist (a_norm b_norm ws_deg we_deg : ℚ) : ℚ :=
  let ep := exit_pt a_norm ws_deg we_deg
  if exit_dir a_norm ws_deg we_deg = 1 then
    if b_norm ≥ ep then b_norm - ep else 360 - ep + b_norm
  else
    if ep ≥ b_norm then -(ep - b_norm) else -(360 - b_norm + ep)

/-- The in-wall branch of `shortest_rotation` (`presets.py:417-477`): total
rotation = exit rotation + remaining rotation, in the exit direction. -/
def insideWallPlan (a_norm b_norm ws_deg we_deg : ℚ) : Option ℚ × Option ℤ :=
  (some (exit_dist a_norm ws_deg we_deg + remaining_dist a_norm b_norm ws_deg we_deg),
   some (exit_dir a_norm ws_deg we_deg))

/-- Route decision of `shortest_rotation` when both endpoints are outside the
wall (`presets.py:479-503`). -/
def routeDecision (cw_cross ccw_cross : Bool) (a b : ℚ) : Option ℚ × Option ℤ :=
  if cw_cross && ccw_cross then (none, none)
  else if cw_cross then (some (ccwRot a b), some 1)
  else if ccw_cross then (some (cwRot a b), some (-1))
  else (some (shortestOpt a b), some (shortestDir a b))

/-- `shortest_rotation` (`presets.py:338-503`): the wall-aware preset
rotation planner.  `(none, none)` signals that no wall-free rotation exists. -/
def shortest_rotation (a b : ℚ) (virtualwallstart virtualwallend : Option ℚ)
    (virtualwall_enabled : Bool) : Option ℚ × Option ℤ :=
  if virtualwall_enabled = false then
    let r := calculate_shortest_rotation a b
    (some r.1, some r.2)
  else
    match virtualwallstart, virtualwallend with
    | some vs, some ve =>
      let a_deg := toDeg a
      let b_deg := toDeg b
      let wstart_deg := toDeg vs
      let wend_deg := toDeg ve
      if inWall b_deg wstart_deg wend_deg then (none, none)
      else if inWall a_deg wstart_deg wend_deg then
        insideWallPlan (norm360 a_deg) (norm360 b_deg) wstart_deg wend_deg
      else
        routeDecision
          (rotation_crosses_wall a_deg b_deg (-1) (some wstart_deg) (some wend_deg))
          (rotation_crosses_wall a_deg b_deg 1 (some wstart_deg) (some wend_deg))
          a b
    | _, _ =>
      let r := calculate_shortest_rotation a b
      (some r.1, some r.2)

/-- The inputs that determine the control flow of one `recall_preset` call
(`presets.py:857-1044`): the requested and configured camera ids, whether a
recall is already active, the stored preset `(pan, tilt, roll, zoom)`, the
transition speed, the preset virtual-wall switch and per-camera pan bounds,
the parsed current position `(tilt, roll, zoom)` if available, and the
tracked local pan. -/
structure RecallArgs where
  camid : ℤ
  apcrCamid : ℤ
  recallActive : Bool
  preset : Option (ℚ × ℚ × ℚ × ℚ)
  presetSpeed : ℚ
  virtualwallpreset : Bool
  wstartPan : Option ℚ
  wendPan : Option ℚ
  position : Option (ℚ × ℚ × ℚ)
  localPan : ℚ

/-- Outcome of a recall: either the call returns without starting a motion
segment, or it hands a target and planned direction to `do_move_segment`
(`presets.py:1018-1031`) — the only place movement commands are emitted. -/
inductive RecallResult
  | aborted
  | moved (tgtPan tgtTilt tgtRoll tgtZoom speed : ℚ) (direction : Option ℤ)
deriving DecidableEq

/-- `recall_preset` (`presets.py:857-1044`): the guard chain before any
motion.  A camid mismatch, an already-active recall, a missing preset, a
target pan inside the enabled virtual wall, a missing current position, or a
planner failure (`distance is None`) all return without movement; otherwise
the final pan `current + distance` is handed to the segment executor. -/
def recall_preset (ra : RecallArgs) : RecallResult :=
  if ra.apcrCamid ≠ ra.camid then .aborted
  else if ra.recallActive then .aborted
  else
    match ra.preset with
    | none => .aborted
    | some (tPan, tTilt, tRoll, tZoom) =>
      if ra.virtualwallpreset = true ∧ inWallOpt tPan ra.wstartPan ra.wendPan = true then
        .aborted
      else
        match ra.position with
        | none => .aborted
        | some _ =>
          match shortest_rotation ra.localPan tPan ra.wstartPan ra.wendPan
              ra.virtualwallpreset with
          | (none, _) => .aborted
          | (some dist, dir) =>
            .moved (ra.localPan + dist) tTilt tRoll tZoom ra.presetSpeed dir

end Presets

namespace Controls

/-- `inWall` (`controls.py:1620-1627`): membership of the raw angle `x` in the
closed interval between the normalised bounds. -/
def inWall (x w1 w2 : ℚ) : Bool :=
  let lower := min (norm360 w1) (norm360 w2)
  let upper := max (norm360 w1) (norm360 w2)
  decide (lower ≤ x ∧ x ≤ upper)

/-- The containment test `pos_in_wall` used by the virtual-wall guard
(`controls.py:513-527`).  Absolute mode applies when either bound lies outside
`[0, 360)`; in that mode the margin widens the wall, in normalised mode the
test delegates to `inWall` (which takes no margin). -/
def pos_in_wall (wall_start wall_end margin pos : ℚ) : Bool :=
  let use_absolute :=
    wall_start < 0 ∨ wall_start ≥ 360 ∨ wall_end < 0 ∨ wall_end ≥ 360
  let wall_boundaries_flipped := wall_start > wall_end
  if use_absolute then
    if wall_boundaries_flipped then
      decide (pos ≥ wall_start - margin ∨ pos ≤ wall_end + margin)
    else
      decide (wall_start - margin ≤ pos ∧ pos ≤ wall_end + margin)
  else
    inWall pos wall_start wall_end

/-- The exit target of the in-wall correction (`controls.py:571-595`): 1°
beyond the wall boundary opposite to the direction of entry. -/
def allowed_exit_target (wall_start wall_end : ℚ) (entry_direction : ℤ) : ℚ :=
  let use_absolute :=
    wall_start < 0 ∨ wall_start ≥ 360 ∨ wall_end < 0 ∨ wall_end ≥ 360
  let wall_boundaries_flipped := wall_start > wall_end
  if use_absolute then
    if wall_boundaries_flipped then
      if entry_direction > 0 then wall_end + 1 else wall_start - 1
    else
      if entry_direction > 0 then wall_start - 1 else wall_end + 1
  else
    if entry_direction > 0 then pmod (norm360 wall_start - 1) 360
    else pmod (norm360 wall_end + 1) 360

/-- The wall tracker of one axis: the recorded entry direction, if any
(`virtual_wall_tracker` holds a dict whose only consumed key is
`entry_direction`). -/
def WallTracker := Option ℤ

/-- `update_virtual_wall_state` (`controls.py:462-603`), with the mutable
per-axis tracker made explicit: result is `((block, trigger_correction,
correction_delta), new tracker state)`. -/
def update_virtual_wall_state (tracker : Option ℤ) (current_pos command_delta : ℚ)
    (wall_start wall_end : Option ℚ) (virtualwall_active : Bool) (margin : ℚ) :
    (Bool × Bool × ℚ) × Option ℤ :=
  if virtualwall_active = false then ((false, false, 0), none)
  else
    match wall_start, wall_end with
    | some ws, some we =>
      let expected_pos := current_pos + command_delta
      let current_in_wall := pos_in_wall ws we margin current_pos
      let expected_in_wall := pos_in_wall ws we margin expected_pos
      if !current_in_wall && !expected_in_wall then ((false, false, 0), none)
      else if !current_in_wall && expected_in_wall then
        ((true, true, 0), some (if command_delta > 0 then 1 else -1))
      else
        let tracker1 : Option ℤ :=
          if current_in_wall = true ∧ tracker = none then
            some (if command_delta > 0 then 1 else -1)
          else tracker
        let entry_direction := tracker1.getD 0
        let allowed_exit_direction := -entry_direction
        let new_cmd_direction : ℤ :=
          if command_delta > 0 then 1 else if command_delta < 0 then -1 else 0
        if new_cmd_direction = allowed_exit_direction then ((false, false, 0), tracker1)
        else
          ((true, true,
            pmod (allowed_exit_target ws we entry_direction - current_pos + 540) 360 - 180),
           tracker1)
    | _, _ => ((false, false, 0), none)

/-- The four command axes. -/
inductive Axis
  | pan
  | tilt
  | roll
  | zoom
deriving DecidableEq

/-- Continuous-motion direction of an axis command. -/
inductive MoveDir
  | positive
  | negative
deriving DecidableEq

/-- The control kind of a continuous command (`control_type`). -/
inductive ControlKind
  | axisInput
  | buttonInput
deriving DecidableEq

/-- Per-axis motion state (`movement_state` in `controls.py`), with the two
scheduled-callback handles modelled as armed flags. -/
structure MovementState where
  active : Bool
  direction : Option MoveDir
  percentage : ℚ
  controlKind : Option ControlKind
  originalPercentage : Option ℚ
  timerArmed : Bool
  idleTimerArmed : Bool
deriving DecidableEq

/-- Two-digit lowercase hex rendering of a camera id (`f"{camid:02x}"`). -/
def camHex (camid : ℕ) : String :=
  let s := String.mk (Nat.toDigits 16 camid)
  if s.length = 1 then "0" ++ s else s

/-- `get_idle_packet` (`controls.py:890-908`): the per-axis idle frame as a
hex string with the camera id in the second byte. -/
def get_idle_packet (as_name : Axis) (camid : ℕ) : Option String :=
  match as_name with
  | .pan => some ("0A" ++ camHex camid ++ "0600000E068180000000")
  | .tilt => some ("0A" ++ camHex camid ++ "0600000E078180000000")
  | .roll => some ("0A" ++ camHex camid ++ "0600000E0880000000")
  | .zoom => some ("0A" ++ camHex camid ++ "060000000980000000")

/-- `stop_movement` (`controls.py:1868-1910`): on an active axis, send the
idle frame, clear the state, cancel the repeat timer and arm the idle-grace
timer; on an inactive axis, do nothing.  Returns the new state and the list
of frames sent. -/
def stop_movement (as_name : Axis) (camid : ℕ) (st : MovementState) :
    MovementState × List String :=
  if st.active then
    ({ active := false
       direction := none
       percentage := 0
       controlKind := none
       originalPercentage := st.originalPercentage
       timerArmed := false
       idleTimerArmed := true },
     match get_idle_packet as_name camid with
     | some h => [h]
     | none => [])
  else (st, [])

/-- `send_idle_if_still_inactive` (`controls.py:1630-1646`): the idle-grace
callback re-sends the idle frame when the axis is still inactive. -/
def send_idle_if_still_inactive (as_name : Axis) (camid : ℕ)
    (st : MovementState) : List String :=
  if st.active then []
  else
    match get_idle_packet as_name camid with
    | some h => [h]
    | none => []

/-- Insertion step for sorting breakpoints by zoom level. -/
def insertPair (p : ℚ × ℚ) : List (ℚ × ℚ) → List (ℚ × ℚ)
  | [] => [p]
  | q :: rest => if p.1 ≤ q.1 then p :: q :: rest else q :: insertPair p rest

/-- Sorting of the breakpoint list by zoom level
(`zoom_speed_mapping.sort(...)`, `controls.py:2125`). -/
def sortPairs : List (ℚ × ℚ) → List (ℚ × ℚ)
  | [] => []
  | p :: rest => insertPair p (sortPairs rest)

/-- The optional per-device breakpoint zoom levels (`controls.py:2110`). -/
def optional_zoom_levels : List ℕ := [0, 10, 25, 50, 75, 100]

/-- The default breakpoints (`controls.py:2104-2107`): zoom 0% → speed 50,
zoom 100% → speed 3. -/
def default_mapping (lvl : ℕ) : Option ℚ :=
  if lvl = 0 then some 50 else if lvl = 100 then some 3 else none

/-- Build the `(zoom level, speed)` breakpoint list
(`controls.py:2113-2122`): a per-device override wins, otherwise the default
(present only for levels 0 and 100) is used. -/
def build_zoom_speed_mapping (custom : ℕ → Option ℚ) : List (ℚ × ℚ) :=
  optional_zoom_levels.foldl
    (fun acc lvl =>
      match custom lvl with
      | some v => acc ++ [((lvl : ℚ), v)]
      | none =>
        match default_mapping lvl with
        | some v => acc ++ [((lvl : ℚ), v)]
        | none => acc)
    []

/-- The bracketing-interval walk of `calculate_adaptive_speed`
(`controls.py:2135-2151`): linear interpolation between the two breakpoints
surrounding the zoom level, truncated to an integer and clamped to
`[1, 100]`. -/
def interp_segments : List (ℚ × ℚ) → ℚ → Option ℚ
  | (lz, ls) :: (uz, us) :: rest, z =>
    if lz ≤ z ∧ z ≤ uz then
      some (max 1 (min 100 ((qtrunc (ls + (z - lz) / (uz - lz) * (us - ls)) : ℤ) : ℚ)))
    else interp_segments ((uz, us) :: rest) z
  | _, _ => none

/-- Interpolation over a built breakpoint list (`controls.py:2128-2158`):
fewer than two breakpoints fall back to the base speed, a zoom level outside
the covered range takes the nearest endpoint value. -/
def adaptive_from_mapping (mapping : List (ℚ × ℚ)) (zoom_percentage base_speed : ℚ) :
    ℚ :=
  if mapping.length < 2 then base_speed
  else
    match interp_segments mapping zoom_percentage with
    | some v => v
    | none =>
      if zoom_percentage < (mapping.headD (0, 0)).1 then (mapping.headD (0, 0)).2
      else (mapping.getLastD (0, 0)).2

/-- `calculate_adaptive_speed` (`controls.py:2067-2158`): disabled or missing
device configuration returns the base speed; otherwise the zoom percentage is
clamped to `[0, 100]` and interpolated over the breakpoint list. -/
def calculate_adaptive_speed (zoom_percentage base_speed : ℚ)
    (adaptive_enabled : Bool) (apcr : Option (ℕ → Option ℚ)) : ℚ :=
  if adaptive_enabled = false then base_speed
  else
    match apcr with
    | none => base_speed
    | some custom =>
      let z := max 0 (min 100 zoom_percentage)
      adaptive_from_mapping (sortPairs (build_zoom_speed_mapping custom)) z base_speed

/-- The per-tick angular delta of `repeat_command` (`controls.py:790-799`):
linear speed interpolation (20..2024 native units, tilt sign-inverted)
truncated to an integer and scaled by `90 / 2024` degrees; zero for
roll/zoom. -/
def repeat_tick_delta (as_name : Axis) (direction : Option MoveDir) (pct : ℚ) : ℚ :=
  match as_name with
  | .pan =>
    let bm : ℚ × ℚ := if direction = some .positive then (20, 2024) else (-20, -2024)
    ((qtrunc (bm.1 + (pct - 1) * (bm.2 - bm.1) / 99) : ℤ) : ℚ) / 2024 * 90
  | .tilt =>
    let bm : ℚ × ℚ := if direction = some .positive then (-20, -2024) else (20, 2024)
    ((qtrunc (bm.1 + (pct - 1) * (bm.2 - bm.1) / 99) : ℤ) : ℚ) / 2024 * 90
  | _ => 0

/-- The adaptive-speed recomputation at the top of `repeat_command`
(`controls.py:768-787`): for pan/tilt/roll with adaptive speed enabled and a
zoom sample available, the stored original percentage (falling back to the
current one) is re-interpolated; otherwise the stored percentage is kept. -/
def repeat_adaptive_pct (as_name : Axis) (st : MovementState)
    (adaptive_enabled : Bool) (zoomPct : Option ℚ) (apcr : Option (ℕ → Option ℚ)) : ℚ :=
  if (as_name = .pan ∨ as_name = .tilt ∨ as_name = .roll) ∧ adaptive_enabled = true then
    match zoomPct with
    | some z =>
      calculate_adaptive_speed z (st.originalPercentage.getD st.percentage)
        adaptive_enabled apcr
    | none => st.percentage
  else st.percentage

/-- Result of one repeat tick. -/
structure RepeatOutcome where
  st : MovementState
  cumulative : ℚ
  sentPacket : Bool
  rearmed : Bool
deriving DecidableEq

/-- `repeat_command` (`controls.py:762-814`): on an active axis, re-evaluate
the adaptive speed, add this tick's angular delta to the cumulative-delta
accumulator, and then either stop (no packet, no re-arm) when the process-wide
`predicted_block` flag is set, or emit the movement packet and re-arm the
repeat timer. -/
def repeat_command (as_name : Axis) (st : MovementState) (adaptive_enabled : Bool)
    (zoomPct : Option ℚ) (apcr : Option (ℕ → Option ℚ)) (predicted_block : Bool)
    (cumulative : ℚ) : RepeatOutcome :=
  if st.active then
    let current_percentage := repeat_adaptive_pct as_name st adaptive_enabled zoomPct apcr
    let command_delta := repeat_tick_delta as_name st.direction current_percentage
    let cumulative2 := cumulative + command_delta
    if predicted_block then
      { st := st, cumulative := cumulative2, sentPacket := false, rearmed := false }
    else
      { st := { st with percentage := current_percentage, timerArmed := true }
        cumulative := cumulative2
        sentPacket := true
        rearmed := true }
  else { st := st, cumulative := cumulative, sentPacket := false, rearmed := false }

/-- `update_cumulative_delta` (`controls.py:1649-1652`). -/
def update_cumulative_delta (cumulative delta : ℚ) : ℚ := cumulative + delta

/-- `reset_cumulative_delta` (`controls.py:1654-1657`).  No component of the
source ever invokes this operation. -/
def reset_cumulative_delta (_cumulative : ℚ) : ℚ := 0

/-- One iteration of the `virtual_wall_predictor` loop
(`controls.py:402-460`): read the cached position, add the cumulative delta,
run the guard with the speed-proportional margin (`20° × ptr_speed / 100`) on
a zero command delta, and set the `predicted_block` flag from the result.  The
iteration reads the accumulator but never writes or resets it. -/
def virtual_wall_predictor_step (current_pos cumulative ptr_speed : ℚ)
    (tracker : Option ℤ) (wall_start wall_end : Option ℚ)
    (virtualwall_active : Bool) : Bool × Option ℤ :=
  let predictor_margin := 20 * (ptr_speed / 100)
  let predicted_pos := current_pos + cumulative
  let r := update_virtual_wall_state tracker predicted_pos 0 wall_start wall_end
    virtualwall_active predictor_margin
  (r.1.1, r.2)

/-- The accumulator-relevant system events wired in the source: an active-axis
repeat tick (which calls `update_cumulative_delta` with that tick's delta,
`controls.py:802`) and a completed predictor cycle (which only reads the
accumulator, `controls.py:432`).  No event in the source calls
`reset_cumulative_delta`. -/
inductive SystemTick
  | repeatTick (as_name : Axis) (direction : Option MoveDir) (pct : ℚ)
  | predictorCycle
deriving DecidableEq

/-- Accumulator contribution of one event. -/
def tickDelta : SystemTick → ℚ
  | .repeatTick as_name direction pct => repeat_tick_delta as_name direction pct
  | .predictorCycle => 0

/-- The cumulative-delta accumulator after a sequence of system events. -/
def cumulativeAfter (cumulative : ℚ) : List SystemTick → ℚ
  | [] => cumulative
  | .repeatTick as_name direction pct :: rest =>
    cumulativeAfter (update_cumulative_delta cumulative
      (repeat_tick_delta as_name direction pct)) rest
  | .predictorCycle :: rest => cumulativeAfter cumulative rest

end Controls

/-! ## Helper lemmas -/

theorem native_to_normalized_nonneg (x : ℚ) :
    0 ≤ Presets.native_to_normalized x :=
  pmod_nonneg _ 360 (by norm_num)

theorem native_to_normalized_lt (x : ℚ) :
    Presets.native_to_normalized x < 360 :=
  pmod_lt _ 360 (by norm_num)

theorem sampleUp_ne_nil (current tgt step : ℚ) (h : current < tgt) :
    Presets.sampleUp current tgt step ≠ [] := by
  unfold Presets.sampleUp Presets.sampleUpAux
  simp [h]

theorem sampleDown_ne_nil (current tgt step : ℚ) (h : tgt < current) :
    Presets.sampleDown current tgt step ≠ [] := by
  unfold Presets.sampleDown Presets.sampleDownAux
  simp [h]

theorem sample_arc_length_ge_two (s e : ℚ) (d : ℤ) (step : ℚ)
    (hs : s < 360) (he : e < 360) :
    2 ≤ (Presets.sample_arc_normalized s e d step).length := by
  have key : ∀ pts : List ℚ, 2 ≤ pts.length →
      2 ≤ (if pts.getLast? = some e then pts else pts ++ [e]).length := by
    intro pts hp
    split
    · exact hp
    · rw [List.length_append]
      omega
  unfold Presets.sample_arc_normalized
  apply key
  split
  · split
    next hgt =>
      have := List.length_pos.mpr (sampleUp_ne_nil s e step hgt)
      simp only [List.length_cons]
      omega
    next =>
      have h1 := List.length_pos.mpr (sampleUp_ne_nil s 360 step hs)
      simp only [List.length_cons, List.length_append, List.length_map]
      omega
  · split
    next hlt =>
      have := List.length_pos.mpr (sampleDown_ne_nil s e step hlt)
      simp only [List.length_cons]
      omega
    next =>
      have h1 := List.length_pos.mpr (sampleDown_ne_nil 360 e step he)
      simp only [List.length_cons, List.length_append, List.length_map]
      omega

theorem pairCross_eq_any (inw : ℚ → Bool) :
    ∀ l : List ℚ, 2 ≤ l.length → Presets.pairCross inw l = l.any inw := by
  intro l
  induction l with
  | nil => intro h; simp at h
  | cons p rest ih =>
    intro h
    match rest with
    | [] => simp at h
    | [q] => simp [Presets.pairCross]
    | q :: r :: rs =>
      have ih2 := ih (by simp)
      simp only [Presets.pairCross, List.any_cons] at ih2 ⊢
      rw [ih2]
      cases inw p <;> cases inw q <;> simp

theorem rotation_crosses_wall_iff (s e : ℚ) (d : ℤ) (w1 w2 : ℚ) :
    Presets.rotation_crosses_wall s e d (some w1) (some w2) = true ↔
      Presets.crossesSampled s e d w1 w2 := by
  have hre : Presets.rotation_crosses_wall s e d (some w1) (some w2) =
      Presets.pairCross (Presets.wallMem (Presets.wallLo w1 w2) (Presets.wallHi w1 w2))
        (Presets.sample_arc_normalized (Presets.native_to_normalized s)
          (Presets.native_to_normalized e) d 2) := rfl
  rw [hre, pairCross_eq_any _ _
    (sample_arc_length_ge_two _ _ _ _ (native_to_normalized_lt s)
      (native_to_normalized_lt e)), List.any_eq_true]
  exact Iff.rfl

/-! ## Claim theorems -/

section
attribute [local semireducible] Rat.add Rat.sub Rat.mul Rat.inv Rat.ofScientific

/-- C10: the preset planner's wall-membership test `inWall` is symmetric in
the two bounds and holds exactly when the normalised angle lies in the closed
interval from the smaller to the larger normalised bound; a wall meant to
wrap across 0°/360° (bounds 350° and 10°) is treated as the non-wrapping
interval `[10°, 350°]`; the wrap-around branch of the membership test is
unreachable because the bounds are sorted before it is evaluated (the test is
extensionally equal to the plain interval test). -/
theorem inWall_sorted_interval :
    (∀ x w1 w2 : ℚ, Presets.inWall x w1 w2 = Presets.inWall x w2 w1)
    ∧ (∀ x w1 w2 : ℚ, Presets.inWall x w1 w2 = true ↔
        min (Presets.native_to_normalized w1) (Presets.native_to_normalized w2) ≤
            Presets.native_to_normalized x ∧
          Presets.native_to_normalized x ≤
            max (Presets.native_to_normalized w1) (Presets.native_to_normalized w2))
    ∧ Presets.inWall 180 350 10 = true
    ∧ Presets.inWall 0 350 10 = false
    ∧ Presets.inWall 9 350 10 = false
    ∧ Presets.inWall 351 350 10 = false := by
  have char : ∀ x w1 w2 : ℚ, Presets.inWall x w1 w2 = true ↔
      min (Presets.native_to_normalized w1) (Presets.native_to_normalized w2) ≤
          Presets.native_to_normalized x ∧
        Presets.native_to_normalized x ≤
          max (Presets.native_to_normalized w1) (Presets.native_to_normalized w2) := by
    intro x w1 w2
    unfold Presets.inWall Presets.wallMem Presets.wallLo Presets.wallHi
    by_cases h : Presets.native_to_normalized w1 ≤ Presets.native_to_normalized w2
    · simp [h, min_eq_left h, max_eq_right h]
    · have h2 : Presets.native_to_normalized w2 ≤ Presets.native_to_normalized w1 :=
        le_of_not_le h
      simp [h, h2, min_eq_right h2, max_eq_left h2]
  refine ⟨?_, char, by decide, by decide, by decide, by decide⟩
  intro x w1 w2
  rw [Bool.eq_iff_iff, char, char, min_comm, max_comm]

/-- C3 counterexample: for the wall `[100°, 200°]` and start 150°, the exit
point computed by the in-wall branch of `shortest_rotation` is 201° (1°
*outside* the nearer boundary), not 199° and not 101° as the claim states;
indeed 199° still lies inside the wall and so could not be an exit point. -/
theorem preset_exit_point_is_outside_boundary :
    Presets.exit_pt 150 100 200 = 201
    ∧ ¬ (Presets.exit_pt 150 100 200 = 199 ∨ Presets.exit_pt 150 100 200 = 101)
    ∧ Presets.inWall 199 100 200 = true := by
  decide

/-- C3 (amended): with wall `[100°, 200°]`, current pan 150° (inside) and
target 250° (outside), the planner exits 1° beyond the nearer boundary — here
201°, the boundaries being equidistant and the upper one chosen — which lies
outside the wall, then continues counter-clockwise to 250° without reversing
(both legs are nonnegative in the exit direction), and returns the sum
51° + 49° = 100° with direction 1 (CCW). -/
theorem preset_recall_from_inside_wall :
    Presets.shortest_rotation 150 250 (some 100) (some 200) true = (some 100, some 1)
    ∧ Presets.exit_pt 150 100 200 = 201
    ∧ Presets.inWall 201 100 200 = false
    ∧ Presets.exit_dir 150 100 200 = 1
    ∧ Presets.exit_dist 150 100 200 = 51
    ∧ Presets.remaining_dist 150 250 100 200 = 49
    ∧ Presets.exit_dist 150 100 200 + Presets.remaining_dist 150 250 100 200 = 100
    ∧ 0 ≤ Presets.exit_dist 150 100 200
    ∧ 0 ≤ Presets.remaining_dist 150 250 100 200 := by
  decide

/-- C9 counterexample: a run of two repeat ticks (pan, full speed) each
followed by a completed predictor cycle leaves the cumulative-delta
accumulator at 180°, not at 0°: the predictor cycle never resets it, because
no component of the source ever calls `reset_cumulative_delta`. -/
theorem cumulative_delta_grows_across_predictor_cycles :
    Controls.cumulativeAfter 0
        [Controls.SystemTick.repeatTick .pan (some .positive) 100,
         Controls.SystemTick.predictorCycle,
         Controls.SystemTick.repeatTick .pan (some .positive) 100,
         Controls.SystemTick.predictorCycle] = 180
    ∧ ¬ Controls.cumulativeAfter 0
        [Controls.SystemTick.repeatTick .pan (some .positive) 100,
         Controls.SystemTick.predictorCycle,
         Controls.SystemTick.repeatTick .pan (some .positive) 100,
         Controls.SystemTick.predictorCycle] = 0 := by
  decide

/-- C9 (amended): the cumulative-delta accumulator holds the sum of all
commanded angular deltas since its initial value — equivalently, since the
most recent call of `reset_cumulative_delta`, which no component of the
source ever makes.  A completed predictor cycle leaves the accumulator
unchanged, so across repeat ticks its value grows without bound (after `n`
full-speed pan ticks it equals `90 · n` degrees). -/
theorem cumulative_delta_accumulates_without_reset :
    (∀ (c : ℚ) (ticks : List Controls.SystemTick),
        Controls.cumulativeAfter c ticks = c + (ticks.map Controls.tickDelta).sum)
    ∧ (∀ (c : ℚ) (ticks : List Controls.SystemTick),
        Controls.cumulativeAfter c (ticks ++ [Controls.SystemTick.predictorCycle])
          = Controls.cumulativeAfter c ticks)
    ∧ (∀ n : ℕ, Controls.cumulativeAfter 0
        (List.replicate n (Controls.SystemTick.repeatTick .pan (some .positive) 100))
          = 90 * n) := by
  have sum_char : ∀ (ticks : List Controls.SystemTick) (c : ℚ),
      Controls.cumulativeAfter c ticks = c + (ticks.map Controls.tickDelta).sum := by
    intro ticks
    induction ticks with
    | nil => intro c; simp [Controls.cumulativeAfter]
    | cons t rest ih =>
      intro c
      cases t with
      | repeatTick as_name direction pct =>
        simp only [Controls.cumulativeAfter, Controls.update_cumulative_delta, ih,
          List.map_cons, List.sum_cons, Controls.tickDelta]
        ring
      | predictorCycle =>
        simp only [Controls.cumulativeAfter, ih, List.map_cons, List.sum_cons,
          Controls.tickDelta]
        ring
  refine ⟨fun c ticks => sum_char ticks c, ?_, ?_⟩
  · intro c ticks
    rw [sum_char, sum_char, List.map_append, List.sum_append]
    simp [Controls.tickDelta]
  · intro n
    rw [sum_char]
    have hdelta : Controls.repeat_tick_delta .pan (some .positive) 100 = 90 := by decide
    simp [Controls.tickDelta, hdelta, List.map_replicate, List.sum_replicate,
      nsmul_eq_mul, mul_comm]

/-- C5: whenever the process-wide `predicted_block` flag is set at the moment
a repeat tick runs on an active axis, the tick first adds this tick's
commanded angular delta to the cumulative-delta accumulator, then emits no
command packet and does not re-arm the repeat timer (so repetition stops, and
no movement command is ever emitted by a repeat tick while the flag is set);
the axis state is left unchanged. -/
theorem repeat_command_stops_on_predicted_block (as_name : Controls.Axis)
    (st : Controls.MovementState) (adaptive_enabled : Bool) (zoomPct : Option ℚ)
    (apcr : Option (ℕ → Option ℚ)) (cumulative : ℚ)
    (hActive : st.active = true) :
    Controls.repeat_command as_name st adaptive_enabled zoomPct apcr true cumulative =
      { st := st
        cumulative := cumulative + Controls.repeat_tick_delta as_name st.direction
          (Controls.repeat_adaptive_pct as_name st adaptive_enabled zoomPct apcr)
        sentPacket := false
        rearmed := false } := by
  simp [Controls.repeat_command, hActive]

/-- C5 witness: a concrete active pan state at full speed with the flag set
adds 90° to the accumulator, sends nothing and does not re-arm. -/
theorem repeat_command_stops_on_predicted_block_witness :
    (⟨true, some .positive, 100, some .axisInput, none, true, false⟩ :
        Controls.MovementState).active = true
    ∧ Controls.repeat_command .pan
        ⟨true, some .positive, 100, some .axisInput, none, true, false⟩
        false none none true 0 =
      { st := ⟨true, some .positive, 100, some .axisInput, none, true, false⟩
        cumulative := 0 + Controls.repeat_tick_delta .pan
          ((⟨true, some .positive, 100, some .axisInput, none, true, false⟩ :
            Controls.MovementState).direction)
          (Controls.repeat_adaptive_pct .pan
            ⟨true, some .positive, 100, some .axisInput, none, true, false⟩
            false none none)
        sentPacket := false
        rearmed := false } :=
  ⟨rfl,
   repeat_command_stops_on_predicted_block .pan
     ⟨true, some .positive, 100, some .axisInput, none, true, false⟩
     false none none 0 rfl⟩

/-- C8: stopping an axis twice in a row performs exactly one
active-to-inactive transition and sends one immediate idle frame in total:
the first call (on an active axis) sends the idle frame, marks the axis
inactive, cancels the repeat timer and arms the idle-grace callback; the
second call leaves all state unchanged and sends nothing; the armed
idle-grace callback would then re-send the same idle frame exactly once
(at most one immediate idle packet plus one grace idle packet in total). -/
theorem stop_movement_idempotent (as_name : Controls.Axis) (camid : ℕ)
    (st : Controls.MovementState) (hActive : st.active = true) :
    ∃ pkt : String,
      Controls.get_idle_packet as_name camid = some pkt
      ∧ (Controls.stop_movement as_name camid st).2 = [pkt]
      ∧ (Controls.stop_movement as_name camid st).1.active = false
      ∧ (Controls.stop_movement as_name camid st).1.timerArmed = false
      ∧ (Controls.stop_movement as_name camid st).1.idleTimerArmed = true
      ∧ Controls.stop_movement as_name camid (Controls.stop_movement as_name camid st).1
          = ((Controls.stop_movement as_name camid st).1, [])
      ∧ Controls.send_idle_if_still_inactive as_name camid
          (Controls.stop_movement as_name camid st).1 = [pkt] := by
  cases as_name <;>
    refine ⟨_, rfl, ?_, ?_, ?_, ?_, ?_, ?_⟩ <;>
    simp [Controls.stop_movement, Controls.get_idle_packet,
      Controls.send_idle_if_still_inactive, hActive]

/-- C8 witness: a concrete active pan state on camera 1. -/
theorem stop_movement_idempotent_witness :
    (⟨true, some .positive, 50, some .axisInput, none, true, false⟩ :
        Controls.MovementState).active = true
    ∧ ∃ pkt : String,
      Controls.get_idle_packet .pan 1 = some pkt
      ∧ (Controls.stop_movement .pan 1
          ⟨true, some .positive, 50, some .axisInput, none, true, false⟩).2 = [pkt]
      ∧ (Controls.stop_movement .pan 1
          ⟨true, some .positive, 50, some .axisInput, none, true, false⟩).1.active = false
      ∧ (Controls.stop_movement .pan 1
          ⟨true, some .positive, 50, some .axisInput, none, true, false⟩).1.timerArmed = false
      ∧ (Controls.stop_movement .pan 1
          ⟨true, some .positive, 50, some .axisInput, none, true, false⟩).1.idleTimerArmed = true
      ∧ Controls.stop_movement .pan 1
          (Controls.stop_movement .pan 1
            ⟨true, some .positive, 50, some .axisInput, none, true, false⟩).1
          = ((Controls.stop_movement .pan 1
            ⟨true, some .positive, 50, some .axisInput, none, true, false⟩).1, [])
      ∧ Controls.send_idle_if_still_inactive .pan 1
          (Controls.stop_movement .pan 1
            ⟨true, some .positive, 50, some .axisInput, none, true, false⟩).1 = [pkt] :=
  ⟨rfl,
   stop_movement_idempotent .pan 1
     ⟨true, some .positive, 50, some .axisInput, none, true, false⟩ rfl⟩

/-- C6: with adaptive speed enabled and only the default breakpoints
(zoom 0 → 50, zoom 100 → 3), the adaptive speed function returns 50 at zoom
0%, 3 at zoom 100%, and the truncated linear midpoint 26 at zoom 50%; with
adaptive speed disabled it returns the base speed unchanged; the
interpolation core falls back to the base speed when fewer than two
breakpoints are configured (lists of length 0 or 1); the zoom percentage is
clamped to `[0, 100]` before use (clamping the input again changes nothing);
and with the default breakpoints the result always lies in `[1, 100]`. -/
theorem calculate_adaptive_speed_spec :
    (∀ base : ℚ,
        Controls.calculate_adaptive_speed 0 base true (some fun _ => none) = 50)
    ∧ (∀ base : ℚ,
        Controls.calculate_adaptive_speed 100 base true (some fun _ => none) = 3)
    ∧ (∀ base : ℚ,
        Controls.calculate_adaptive_speed 50 base true (some fun _ => none) = 26)
    ∧ (∀ (z base : ℚ) (cfg : Option (ℕ → Option ℚ)),
        Controls.calculate_adaptive_speed z base false cfg = base)
    ∧ (∀ z base : ℚ, Controls.adaptive_from_mapping [] z base = base)
    ∧ (∀ (p : ℚ × ℚ) (z base : ℚ), Controls.adaptive_from_mapping [p] z base = base)
    ∧ (∀ z base : ℚ,
        Controls.calculate_adaptive_speed z base true (some fun _ => none)
          = Controls.calculate_adaptive_speed (max 0 (min 100 z)) base true
              (some fun _ => none))
    ∧ (∀ z base : ℚ,
        1 ≤ Controls.calculate_adaptive_speed z base true (some fun _ => none)
        ∧ Controls.calculate_adaptive_speed z base true (some fun _ => none) ≤ 100) := by
  have hmap : Controls.sortPairs
      (Controls.build_zoom_speed_mapping (fun _ => none)) = [(0, 50), (100, 3)] := by
    decide
  have hcalc : ∀ z base : ℚ,
      Controls.calculate_adaptive_speed z base true (some fun _ => none)
        = Controls.adaptive_from_mapping [(0, 50), (100, 3)] (max 0 (min 100 z)) base := by
    intro z base
    simp [Controls.calculate_adaptive_speed, hmap]
  have hclamp : ∀ z : ℚ, max 0 (min 100 (max 0 (min 100 z))) = max 0 (min 100 z) := by
    intro z
    have h0 : (0 : ℚ) ≤ max 0 (min 100 z) := le_max_left 0 _
    have h100 : max 0 (min 100 z) ≤ 100 :=
      max_le (by norm_num) (min_le_left 100 z)
    rw [min_eq_right h100, max_eq_right h0]
  have hinterp : ∀ z base : ℚ, 0 ≤ z → z ≤ 100 →
      Controls.adaptive_from_mapping [(0, 50), (100, 3)] z base
        = max 1 (min 100 ((qtrunc (50 + (z - 0) / (100 - 0) * (3 - 50)) : ℤ) : ℚ)) := by
    intro z base h0 h100
    simp [Controls.adaptive_from_mapping, Controls.interp_segments, h0, h100]
  refine ⟨?_, ?_, ?_, ?_, ?_, ?_, ?_, ?_⟩
  · intro base
    rw [hcalc]
    norm_num
    rw [hinterp _ base (by norm_num) (by norm_num)]
    decide
  · intro base
    rw [hcalc]
    norm_num
    rw [hinterp _ base (by norm_num) (by norm_num)]
    decide
  · intro base
    rw [hcalc]
    norm_num
    rw [hinterp _ base (by norm_num) (by norm_num)]
    decide
  · intro z base cfg
    simp [Controls.calculate_adaptive_speed]
  · intro z base
    simp [Controls.adaptive_from_mapping]
  · intro p z base
    simp [Controls.adaptive_from_mapping]
  · intro z base
    rw [hcalc, hcalc, hclamp]
  · intro z base
    rw [hcalc, hinterp _ base (le_max_left 0 _)
      (max_le (by norm_num) (min_le_left 100 z))]
    constructor
    · exact le_max_left 1 _
    · exact max_le (by norm_num) (min_le_left 100 _)

/-- C2: for every axis, current position and non-zero commanded delta, when
the wall is enabled with bounds present and the current position is inside
the wall, the guard allows the command exactly when its direction equals the
negation of the tracked entry direction — the entry direction being inferred
from the delta's sign when the tracker holds none — and otherwise blocks and
returns `correction_delta = ((target - current + 540) mod 360) - 180`, where
`target` (`allowed_exit_target`) is 1° beyond the wall boundary on the side
opposite the entry direction. -/
theorem update_virtual_wall_state_inside_wall (tracker : Option ℤ)
    (current_pos command_delta ws we margin : ℚ)
    (hδ : command_delta ≠ 0)
    (hIn : Controls.pos_in_wall ws we margin current_pos = true) :
    ((if 0 < command_delta then (1 : ℤ) else -1)
        = -(tracker.getD (if 0 < command_delta then 1 else -1)) →
      (Controls.update_virtual_wall_state tracker current_pos command_delta
          (some ws) (some we) true margin).1 = (false, false, 0))
    ∧ ((if 0 < command_delta then (1 : ℤ) else -1)
        ≠ -(tracker.getD (if 0 < command_delta then 1 else -1)) →
      (Controls.update_virtual_wall_state tracker current_pos command_delta
          (some ws) (some we) true margin).1 = (true, true,
        pmod (Controls.allowed_exit_target ws we
            (tracker.getD (if 0 < command_delta then 1 else -1))
          - current_pos + 540) 360 - 180)) := by
  have key : ∀ tr : Option ℤ,
      (Controls.update_virtual_wall_state tr current_pos command_delta
          (some ws) (some we) true margin).1 =
        (if (if 0 < command_delta then (1 : ℤ) else -1)
            = -(tr.getD (if 0 < command_delta then 1 else -1)) then
          ((false : Bool), (false : Bool), (0 : ℚ))
        else
          (true, true,
            pmod (Controls.allowed_exit_target ws we
                (tr.getD (if 0 < command_delta then 1 else -1))
              - current_pos + 540) 360 - 180)) := by
    intro tr
    rcases lt_trichotomy command_delta 0 with h | h | h
    · cases tr <;>
        (simp [Controls.update_virtual_wall_state, hIn, h, not_lt.mpr (le_of_lt h)];
          try (split <;> rfl))
    · exact absurd h hδ
    · cases tr <;>
        (simp [Controls.update_virtual_wall_state, hIn, h, not_lt.mpr (le_of_lt h)];
          try (split <;> rfl))
  constructor
  · intro hdir
    rw [key tracker, if_pos hdir]
  · intro hdir
    rw [key tracker, if_neg hdir]

/-- C2 witness: pan inside the wall `[100°, 200°]` at 150° with recorded
entry direction `+1`; a further positive command (delta 1°) is not in the
exit direction and is blocked with the correction toward 99°. -/
theorem update_virtual_wall_state_inside_wall_witness :
    (1 : ℚ) ≠ 0
    ∧ Controls.pos_in_wall 100 200 0 150 = true
    ∧ ((if 0 < (1 : ℚ) then (1 : ℤ) else -1)
        ≠ -((some (1 : ℤ)).getD (if 0 < (1 : ℚ) then 1 else -1)) →
      (Controls.update_virtual_wall_state (some 1) 150 1
          (some 100) (some 200) true 0).1 = (true, true,
        pmod (Controls.allowed_exit_target 100 200
            ((some (1 : ℤ)).getD (if 0 < (1 : ℚ) then 1 else -1))
          - 150 + 540) 360 - 180)) :=
  ⟨by norm_num, by decide,
   (update_virtual_wall_state_inside_wall (some 1) 150 1 100 200 0
     (by norm_num) (by decide)).2⟩

/-- C7 counterexample: for the normalised wall configuration `[100°, 200°]`
with margin 5°, the positions exactly at the boundaries extended by the
margin (95° and 205°) are NOT inside according to the guard's containment
test — `pos_in_wall` ignores the margin entirely in normalised mode, so the
claimed boundary-inclusivity law fails for every normalised configuration
with a positive margin. -/
theorem pos_in_wall_ignores_margin_in_normalized_mode :
    Controls.pos_in_wall 100 200 5 205 = false
    ∧ Controls.pos_in_wall 100 200 5 95 = false := by
  decide

/-- C7 (amended): the boundary-inclusivity law holds in absolute mode — for
non-flipped bounds unconditionally, and for flipped bounds provided the two
margin-extended halves leave a gap at the tested point — while in normalised
mode the containment test ignores the margin (it equals `inWall` for every
margin), so the law holds there only at the bare boundaries (i.e. with
margin 0): at each boundary the test holds, and one unit beyond it the test
fails. -/
theorem pos_in_wall_boundary_law (ws we margin : ℚ) :
    ((ws < 0 ∨ ws ≥ 360 ∨ we < 0 ∨ we ≥ 360) → ws ≤ we → 0 ≤ margin →
      Controls.pos_in_wall ws we margin (ws - margin) = true
      ∧ Controls.pos_in_wall ws we margin (we + margin) = true
      ∧ Controls.pos_in_wall ws we margin (ws - margin - 1) = false
      ∧ Controls.pos_in_wall ws we margin (we + margin + 1) = false)
    ∧ ((ws < 0 ∨ ws ≥ 360 ∨ we < 0 ∨ we ≥ 360) → we < ws →
        we + margin + 1 < ws - margin →
      Controls.pos_in_wall ws we margin (ws - margin) = true
      ∧ Controls.pos_in_wall ws we margin (we + margin) = true
      ∧ Controls.pos_in_wall ws we margin (ws - margin - 1) = false
      ∧ Controls.pos_in_wall ws we margin (we + margin + 1) = false)
    ∧ (0 ≤ ws → ws < 360 → 0 ≤ we → we < 360 →
      (∀ pos : ℚ, Controls.pos_in_wall ws we margin pos = Controls.inWall pos ws we)
      ∧ Controls.pos_in_wall ws we margin (min ws we) = true
      ∧ Controls.pos_in_wall ws we margin (max ws we) = true
      ∧ Controls.pos_in_wall ws we margin (min ws we - 1) = false
      ∧ Controls.pos_in_wall ws we margin (max ws we + 1) = false) := by
  refine ⟨?_, ?_, ?_⟩
  · intro habs hle hm
    have hflip : ¬ ws > we := not_lt.mpr hle
    refine ⟨?_, ?_, ?_, ?_⟩ <;>
      simp only [Controls.pos_in_wall, if_pos habs, if_neg hflip,
        decide_eq_true_eq, decide_eq_false_iff_not, not_and, not_le]
    · exact ⟨le_refl _, by linarith⟩
    · exact ⟨by linarith, le_refl _⟩
    · intro hcon; linarith
    · intro hcon; linarith
  · intro habs hlt hgap
    have hflip : ws > we := hlt
    refine ⟨?_, ?_, ?_, ?_⟩ <;>
      simp only [Controls.pos_in_wall, if_pos habs, if_pos hflip,
        decide_eq_true_eq, decide_eq_false_iff_not, not_or, not_le]
    · exact Or.inl (le_refl _)
    · exact Or.inr (le_refl _)
    · constructor <;> linarith
    · constructor <;> linarith
  · intro h0s h1s h0e h1e
    have habs : ¬ (ws < 0 ∨ ws ≥ 360 ∨ we < 0 ∨ we ≥ 360) := by
      push_neg
      exact ⟨h0s, by simpa using h1s, h0e, by simpa using h1e⟩
    have heq : ∀ pos : ℚ,
        Controls.pos_in_wall ws we margin pos = Controls.inWall pos ws we := by
      intro pos
      simp only [Controls.pos_in_wall, if_neg habs]
    have hnorm_s : norm360 ws = ws := norm360_eq_self ws h0s h1s
    have hnorm_e : norm360 we = we := norm360_eq_self we h0e h1e
    refine ⟨heq, ?_, ?_, ?_, ?_⟩ <;>
      simp only [heq, Controls.inWall, hnorm_s, hnorm_e, decide_eq_true_eq,
        decide_eq_false_iff_not, not_and, not_le]
    · exact ⟨le_refl _, min_le_max⟩
    · exact ⟨min_le_max, le_refl _⟩
    · intro hcon; linarith
    · intro hcon
      have := le_max_left ws we
      have := le_max_right ws we
      linarith [min_le_max (a := ws) (b := we)]

/-- C7 witness for the amended law: an absolute non-flipped configuration
`[400°, 500°]` with margin 5, an absolute flipped configuration
`(start 500°, end 380°)` with margin 5, and the normalised configuration
`[100°, 200°]` with margin 7 (margin ignored, bare boundaries inclusive). -/
theorem pos_in_wall_boundary_law_witness :
    (Controls.pos_in_wall 400 500 5 395 = true
      ∧ Controls.pos_in_wall 400 500 5 505 = true
      ∧ Controls.pos_in_wall 400 500 5 394 = false
      ∧ Controls.pos_in_wall 400 500 5 506 = false)
    ∧ (Controls.pos_in_wall 500 380 5 495 = true
      ∧ Controls.pos_in_wall 500 380 5 385 = true
      ∧ Controls.pos_in_wall 500 380 5 494 = false
      ∧ Controls.pos_in_wall 500 380 5 386 = false)
    ∧ ((∀ pos : ℚ, Controls.pos_in_wall 100 200 7 pos = Controls.inWall pos 100 200)
      ∧ Controls.pos_in_wall 100 200 7 (min 100 200) = true
      ∧ Controls.pos_in_wall 100 200 7 (max 100 200) = true
      ∧ Controls.pos_in_wall 100 200 7 (min 100 200 - 1) = false
      ∧ Controls.pos_in_wall 100 200 7 (max 100 200 + 1) = false) := by
  refine ⟨?_, ?_, ?_⟩
  · have h := (pos_in_wall_boundary_law 400 500 5).1
      (by norm_num) (by norm_num) (by norm_num)
    convert h using 3
  · have h := (pos_in_wall_boundary_law 500 380 5).2.1
      (by norm_num) (by norm_num) (by norm_num)
    convert h using 3
  · exact (pos_in_wall_boundary_law 100 200 7).2.2
      (by norm_num) (by norm_num) (by norm_num) (by norm_num)

/-- C4: with the preset virtual wall enabled and bounds configured, a target
pan inside the wall makes the planner fail with `(none, none)`; a recall
whose stored target pan lies inside the wall returns without handing any
motion to the segment executor (no movement command is sent); and whenever
the planner reports failure — in particular when both routes are blocked —
the recall likewise attempts no motion. -/
theorem recall_blocked_by_wall :
    (∀ a b vs ve : ℚ,
        Presets.inWall (Presets.toDeg b) (Presets.toDeg vs) (Presets.toDeg ve) = true →
        Presets.shortest_rotation a b (some vs) (some ve) true = (none, none))
    ∧ (∀ (ra : Presets.RecallArgs) (tPan tTilt tRoll tZoom : ℚ),
        ra.preset = some (tPan, tTilt, tRoll, tZoom) →
        ra.virtualwallpreset = true →
        Presets.inWallOpt tPan ra.wstartPan ra.wendPan = true →
        Presets.recall_preset ra = .aborted)
    ∧ (∀ (ra : Presets.RecallArgs) (tPan tTilt tRoll tZoom : ℚ),
        ra.preset = some (tPan, tTilt, tRoll, tZoom) →
        Presets.shortest_rotation ra.localPan tPan ra.wstartPan ra.wendPan
            ra.virtualwallpreset = (none, none) →
        Presets.recall_preset ra = .aborted) := by
  refine ⟨?_, ?_, ?_⟩
  · intro a b vs ve hb
    simp [Presets.shortest_rotation, hb]
  · intro ra tPan tTilt tRoll tZoom hp hv hw
    unfold Presets.recall_preset
    rw [hp]
    by_cases h1 : ra.apcrCamid ≠ ra.camid
    · simp [h1]
    · by_cases h2 : ra.recallActive
      · simp [h1, h2]
      · simp [h1, h2, hv, hw]
  · intro ra tPan tTilt tRoll tZoom hp hs
    unfold Presets.recall_preset
    rw [hp]
    by_cases h1 : ra.apcrCamid ≠ ra.camid
    · simp [h1]
    · by_cases h2 : ra.recallActive
      · simp [h1, h2]
      · by_cases h3 : ra.virtualwallpreset = true
            ∧ Presets.inWallOpt tPan ra.wstartPan ra.wendPan = true
        · simp [h1, h2, h3]
        · cases hpos : ra.position with
          | none => simp [h1, h2, h3, hpos]
          | some p => simp [h1, h2, h3, hpos, hs]

/-- C4 witness: camera 1, preset target pan 150° inside the enabled wall
`[100°, 200°]`: the planner fails and the recall aborts without motion. -/
theorem recall_blocked_by_wall_witness :
    Presets.inWall (Presets.toDeg 150) (Presets.toDeg 100) (Presets.toDeg 200) = true
    ∧ Presets.shortest_rotation 0 150 (some 100) (some 200) true = (none, none)
    ∧ Presets.recall_preset
        ⟨1, 1, false, some (150, 10, 0, 1000), 50, true,
          some 100, some 200, some (0, 0, 1000), 0⟩ = .aborted
    ∧ Presets.recall_preset
        ⟨1, 1, false, some (150, 10, 0, 1000), 50, true,
          some 100, some 200, some (0, 0, 1000), 0⟩ = .aborted :=
  ⟨by decide,
   recall_blocked_by_wall.1 0 150 100 200 (by decide),
   recall_blocked_by_wall.2.1
     ⟨1, 1, false, some (150, 10, 0, 1000), 50, true,
       some 100, some 200, some (0, 0, 1000), 0⟩ 150 10 0 1000 rfl rfl (by decide),
   recall_blocked_by_wall.2.2
     ⟨1, 1, false, some (150, 10, 0, 1000), 50, true,
       some 100, some 200, some (0, 0, 1000), 0⟩ 150 10 0 1000 rfl (by decide)⟩

theorem foldRot_congr (d : ℚ) : ∃ k : ℤ,
    (if pmod d 360 > 180 then pmod d 360 - 360 else pmod d 360) = d + 360 * k := by
  obtain ⟨k, hk⟩ := pmod_sub_int_mul d 360
  split
  · refine ⟨k - 1, ?_⟩
    rw [hk]
    push_cast
    ring
  · exact ⟨k, hk⟩

theorem ccwRot_congr (a b : ℚ) : ∃ k : ℤ,
    Presets.ccwRot a b
      = norm360 (Presets.toDeg b) - norm360 (Presets.toDeg a) + 360 * k :=
  foldRot_congr _

theorem cwRot_congr (a b : ℚ) : ∃ k : ℤ,
    Presets.cwRot a b
      = norm360 (Presets.toDeg b) - norm360 (Presets.toDeg a) + 360 * k := by
  obtain ⟨k, hk⟩ :=
    foldRot_congr (norm360 (Presets.toDeg a) - norm360 (Presets.toDeg b))
  refine ⟨-k, ?_⟩
  simp only [Presets.cwRot]
  rw [hk]
  push_cast
  ring

theorem shortestOpt_congr (a b : ℚ) : ∃ k : ℤ,
    Presets.shortestOpt a b
      = norm360 (Presets.toDeg b) - norm360 (Presets.toDeg a) + 360 * k := by
  unfold Presets.shortestOpt
  split
  · exact cwRot_congr a b
  · exact ccwRot_congr a b

theorem shortestOpt_min (a b : ℚ) :
    |Presets.shortestOpt a b| ≤ |Presets.cwRot a b|
    ∧ |Presets.shortestOpt a b| ≤ |Presets.ccwRot a b| := by
  unfold Presets.shortestOpt
  split
  next h => exact ⟨le_refl _, h⟩
  next h => exact ⟨le_of_lt (not_le.mp h), le_refl _⟩

/-- C1: with the wall enabled and bounds configured, when neither the current
angle `a` nor the target `b` lies inside the wall, the planner's
route-crossing test of each direction is exactly the sampled test — some
sample of the arc, taken at a step of 2° (≤ 2°), lies inside the wall —
and: if both routes cross, the planner fails with `(none, none)`; if exactly
one route crosses, it returns the other route — the returned direction is the
non-crossing one, and the returned rotation reaches the target modulo full
turns — even when that route is the longer one; and if neither route crosses
it returns the shorter rotation (its magnitude is at most either candidate's)
with its direction. -/
theorem shortest_rotation_route_selection (a b w1 w2 : ℚ)
    (hA : Presets.inWall (Presets.toDeg a) (Presets.toDeg w1) (Presets.toDeg w2) = false)
    (hB : Presets.inWall (Presets.toDeg b) (Presets.toDeg w1) (Presets.toDeg w2) = false) :
    (Presets.rotation_crosses_wall (Presets.toDeg a) (Presets.toDeg b) (-1)
        (some (Presets.toDeg w1)) (some (Presets.toDeg w2)) = true ↔
      Presets.crossesSampled (Presets.toDeg a) (Presets.toDeg b) (-1)
        (Presets.toDeg w1) (Presets.toDeg w2))
    ∧ (Presets.rotation_crosses_wall (Presets.toDeg a) (Presets.toDeg b) 1
        (some (Presets.toDeg w1)) (some (Presets.toDeg w2)) = true ↔
      Presets.crossesSampled (Presets.toDeg a) (Presets.toDeg b) 1
        (Presets.toDeg w1) (Presets.toDeg w2))
    ∧ (Presets.crossesSampled (Presets.toDeg a) (Presets.toDeg b) (-1)
          (Presets.toDeg w1) (Presets.toDeg w2) →
       Presets.crossesSampled (Presets.toDeg a) (Presets.toDeg b) 1
          (Presets.toDeg w1) (Presets.toDeg w2) →
       Presets.shortest_rotation a b (some w1) (some w2) true = (none, none))
    ∧ (Presets.crossesSampled (Presets.toDeg a) (Presets.toDeg b) (-1)
          (Presets.toDeg w1) (Presets.toDeg w2) →
       ¬ Presets.crossesSampled (Presets.toDeg a) (Presets.toDeg b) 1
          (Presets.toDeg w1) (Presets.toDeg w2) →
       Presets.shortest_rotation a b (some w1) (some w2) true
          = (some (Presets.ccwRot a b), some 1)
       ∧ ∃ k : ℤ, Presets.ccwRot a b
          = norm360 (Presets.toDeg b) - norm360 (Presets.toDeg a) + 360 * k)
    ∧ (¬ Presets.crossesSampled (Presets.toDeg a) (Presets.toDeg b) (-1)
          (Presets.toDeg w1) (Presets.toDeg w2) →
       Presets.crossesSampled (Presets.toDeg a) (Presets.toDeg b) 1
          (Presets.toDeg w1) (Presets.toDeg w2) →
       Presets.shortest_rotation a b (some w1) (some w2) true
          = (some (Presets.cwRot a b), some (-1))
       ∧ ∃ k : ℤ, Presets.cwRot a b
          = norm360 (Presets.toDeg b) - norm360 (Presets.toDeg a) + 360 * k)
    ∧ (¬ Presets.crossesSampled (Presets.toDeg a) (Presets.toDeg b) (-1)
          (Presets.toDeg w1) (Presets.toDeg w2) →
       ¬ Presets.crossesSampled (Presets.toDeg a) (Presets.toDeg b) 1
          (Presets.toDeg w1) (Presets.toDeg w2) →
       Presets.shortest_rotation a b (some w1) (some w2) true
          = (some (Presets.shortestOpt a b), some (Presets.shortestDir a b))
       ∧ |Presets.shortestOpt a b| ≤ |Presets.cwRot a b|
       ∧ |Presets.shortestOpt a b| ≤ |Presets.ccwRot a b|
       ∧ ∃ k : ℤ, Presets.shortestOpt a b
          = norm360 (Presets.toDeg b) - norm360 (Presets.toDeg a) + 360 * k) := by
  have hiffCW := rotation_crosses_wall_iff (Presets.toDeg a) (Presets.toDeg b) (-1)
    (Presets.toDeg w1) (Presets.toDeg w2)
  have hiffCCW := rotation_crosses_wall_iff (Presets.toDeg a) (Presets.toDeg b) 1
    (Presets.toDeg w1) (Presets.toDeg w2)
  have hred : Presets.shortest_rotation a b (some w1) (some w2) true
      = Presets.routeDecision
          (Presets.rotation_crosses_wall (Presets.toDeg a) (Presets.toDeg b) (-1)
            (some (Presets.toDeg w1)) (some (Presets.toDeg w2)))
          (Presets.rotation_crosses_wall (Presets.toDeg a) (Presets.toDeg b) 1
            (some (Presets.toDeg w1)) (some (Presets.toDeg w2)))
          a b := by
    simp only [Presets.shortest_rotation, hA, hB]
    simp
  refine ⟨hiffCW, hiffCCW, ?_, ?_, ?_, ?_⟩
  · intro h1 h2
    rw [hred, hiffCW.mpr h1, hiffCCW.mpr h2]
    simp [Presets.routeDecision]
  · intro h1 h2
    have b2 : Presets.rotation_crosses_wall (Presets.toDeg a) (Presets.toDeg b) 1
        (some (Presets.toDeg w1)) (some (Presets.toDeg w2)) = false :=
      Bool.eq_false_iff.mpr (fun hx => h2 (hiffCCW.mp hx))
    refine ⟨?_, ccwRot_congr a b⟩
    rw [hred, hiffCW.mpr h1, b2]
    simp [Presets.routeDecision]
  · intro h1 h2
    have b1 : Presets.rotation_crosses_wall (Presets.toDeg a) (Presets.toDeg b) (-1)
        (some (Presets.toDeg w1)) (some (Presets.toDeg w2)) = false :=
      Bool.eq_false_iff.mpr (fun hx => h1 (hiffCW.mp hx))
    refine ⟨?_, cwRot_congr a b⟩
    rw [hred, b1, hiffCCW.mpr h2]
    simp [Presets.routeDecision]
  · intro h1 h2
    have b1 : Presets.rotation_crosses_wall (Presets.toDeg a) (Presets.toDeg b) (-1)
        (some (Presets.toDeg w1)) (some (Presets.toDeg w2)) = false :=
      Bool.eq_false_iff.mpr (fun hx => h1 (hiffCW.mp hx))
    have b2 : Presets.rotation_crosses_wall (Presets.toDeg a) (Presets.toDeg b) 1
        (some (Presets.toDeg w1)) (some (Presets.toDeg w2)) = false :=
      Bool.eq_false_iff.mpr (fun hx => h2 (hiffCCW.mp hx))
    refine ⟨?_, (shortestOpt_min a b).1, (shortestOpt_min a b).2, shortestOpt_congr a b⟩
    rw [hred, b1, b2]
    simp [Presets.routeDecision]

/-- C1 witness: the specification's own scenario — wall `[100°, 200°]`,
current pan 50°, target 250°: only the counter-clockwise route crosses, so
the planner selects the clockwise route. -/
theorem shortest_rotation_route_selection_witness :
    Presets.inWall (Presets.toDeg 50) (Presets.toDeg 100) (Presets.toDeg 200) = false
    ∧ Presets.inWall (Presets.toDeg 250) (Presets.toDeg 100) (Presets.toDeg 200) = false
    ∧ ¬ Presets.crossesSampled (Presets.toDeg 50) (Presets.toDeg 250) (-1)
        (Presets.toDeg 100) (Presets.toDeg 200)
    ∧ Presets.crossesSampled (Presets.toDeg 50) (Presets.toDeg 250) 1
        (Presets.toDeg 100) (Presets.toDeg 200)
    ∧ (Presets.shortest_rotation 50 250 (some 100) (some 200) true
        = (some (Presets.cwRot 50 250), some (-1))
      ∧ ∃ k : ℤ, Presets.cwRot 50 250
        = norm360 (Presets.toDeg 250) - norm360 (Presets.toDeg 50) + 360 * k) :=
  ⟨by decide, by decide, by decide, by decide,
   (shortest_rotation_route_selection 50 250 100 200 (by decide) (by decide)).2.2.2.2.1
     (by decide) (by decide)⟩

end

end APCRControl
